import Mathlib

/-!
Shallow embedding of `t5x/train_state.py`: the `FlaxOptimTrainState` value
type (step counter, model parameters, optimizer state, optional axis
metadata, flax mutable collections) and its operations `create`,
`state_dict`, `apply_gradient`, `replace_params`, `replace_step`,
`restore_state` and `as_logical_axes`.

The external collaborators (`flax.optim.Optimizer` / `OptimizerDef` and
`flax.linen.partitioning.get_axis_names`) are modelled as explicit Lean
structures whose numeric update rules are abstract function fields:
the embedding fixes only the plumbing the train-state code observes
(field layout, step bookkeeping, the state-dict key structure), exactly
as the spec treats them (external interfaces, §6).
-/

/-- A variable tree: leaves are numeric tensors (abstracted to `Int`) or
axis-name tuples, interior nodes are string-keyed mappings.  This models
the Flax pytree values stored in variable dicts. -/
inductive VTree where
  | leaf : Int → VTree
  | axes : List String → VTree
  | node : List (String × VTree) → VTree

/-- A frozen variable dict: a finite string-keyed mapping, modelled as an
association list (first binding of a key wins). -/
abbrev FrozenDict := List (String × VTree)

/-- `EMPTY_DICT = flax.core.freeze({})` from `train_state.py`. -/
def EMPTY_DICT : FrozenDict := []

/-- Key lookup in a frozen dict (Python `d[key]` / `key in d`). -/
def fdLookup : FrozenDict → String → Option VTree
  | [], _ => none
  | (k, v) :: rest, key => if k = key then some v else fdLookup rest key

/-- Removal of every binding of a key (used to build the `pop` remainder). -/
def fdRemove : FrozenDict → String → FrozenDict
  | [], _ => []
  | (k, v) :: rest, key =>
      if k = key then fdRemove rest key else (k, v) :: fdRemove rest key

/-- `FrozenDict.pop(key)` from flax: returns the remainder and the popped
value, or `none` when the key is absent (Python raises `KeyError`). -/
def fdPop (d : FrozenDict) (key : String) : Option (FrozenDict × VTree) :=
  match fdLookup d key with
  | none => none
  | some v => some (fdRemove d key, v)

/-- Model of the external `flax.optim.OptimizerDef` collaborator.  The
capability probes `hasattr(optimizer_def, 'set_param_axes')` and
`hasattr(optimizer_def, 'derive_logical_axes')` become booleans; the
numeric behaviour of the update rule, state init and axis derivation are
abstract function fields, since the train-state core never looks inside
them.  `applyGradientFn` maps (step, target, param_states, grads,
learning_rate) to the new (step, target, param_states) triple;
`deriveLogicalAxesFn` maps (step, target, param_states, axis_names) to
the derived triple. -/
structure OptimizerDef where
  className : String
  hasSetParamAxes : Bool
  hasDeriveLogicalAxes : Bool
  initParamStatesFn : VTree → VTree
  applyGradientFn : Nat → VTree → VTree → VTree → Int → Nat × VTree × VTree
  deriveLogicalAxesFn : Nat → VTree → VTree → FrozenDict → Nat × VTree × VTree
  paramAxesSet : Option FrozenDict

/-- Model of `flax.optim.OptimizerState`: step counter plus per-parameter
optimizer state. -/
structure OptimizerState where
  step : Nat
  param_states : VTree

/-- Model of the external `flax.optim.Optimizer` value: its definition,
target (the parameters) and state. -/
structure Optimizer where
  optimizer_def : OptimizerDef
  target : VTree
  state : OptimizerState

/-- `OptimizerDef.create(params)`: fresh optimizer at step 0 with
per-parameter state produced by the definition. -/
def OptimizerDef.create (d : OptimizerDef) (params : VTree) : Optimizer :=
  { optimizer_def := d, target := params,
    state := { step := 0, param_states := d.initParamStatesFn params } }

/-- `optimizer_def.set_param_axes(axis_names)`: records the axis names on
the definition (the Python call mutates the definition in place; here it
returns the updated definition). -/
def OptimizerDef.set_param_axes (d : OptimizerDef) (axis_names : FrozenDict) :
    OptimizerDef :=
  { d with paramAxesSet := some axis_names }

/-- `Optimizer.apply_gradient(grads, learning_rate)`: delegates to the
definition's update rule and repacks the resulting triple. -/
def Optimizer.apply_gradient (o : Optimizer) (grads : VTree)
    (learning_rate : Int) : Optimizer :=
  let r := o.optimizer_def.applyGradientFn o.state.step o.target
             o.state.param_states grads learning_rate
  { o with target := r.2.1, state := { step := r.1, param_states := r.2.2 } }

/-- The inner `state` mapping of an optimizer state dict, with each key
optional so that snapshots missing required keys are representable. -/
structure InnerStateDict where
  step : Option Nat
  param_states : Option VTree

/-- A serialized snapshot: the nested mapping
`{target, state: {step, param_states}, [flax_mutables]}` produced by
`state_dict` and consumed by `restore_state`.  Every key is optional so
that invalid snapshots (missing required keys) are representable. -/
structure StateDict where
  target : Option VTree
  state : Option InnerStateDict
  flax_mutables : Option FrozenDict

/-- `Optimizer.state_dict()`: serializes target and state; never emits a
`flax_mutables` key (that key is added by the train state). -/
def Optimizer.state_dict (o : Optimizer) : StateDict :=
  { target := some o.target,
    state := some { step := some o.state.step,
                    param_states := some o.state.param_states },
    flax_mutables := none }

/-- `Optimizer.restore_state(state_dict)`: rebuilds target and state from
the snapshot, failing when a required key (`target`, `state`,
`state.step`, `state.param_states`) is missing; unknown extra keys such
as `flax_mutables` are ignored, and the optimizer definition is kept
from the receiver (it is not serialized). -/
def Optimizer.restore_state (o : Optimizer) (sd : StateDict) :
    Except String Optimizer :=
  match sd.target, sd.state with
  | some t, some inner =>
      match inner.step, inner.param_states with
      | some st, some ps =>
          Except.ok { o with target := t,
                             state := { step := st, param_states := ps } }
      | _, _ => Except.error "missing key in state subtree of snapshot"
  | _, _ => Except.error "missing target or state key in snapshot"

/-- Model of the external `flax.linen.partitioning.get_axis_names`
routine: decodes an axis-metadata tree into a dict of axis-name
assignments.  No claim depends on its output, only on it being passed
through, so a structural stand-in suffices. -/
def get_axis_names : Option VTree → FrozenDict
  | some (VTree.node kvs) => kvs
  | some t => [("params", t)]
  | none => []

/-- `FlaxOptimTrainState` from `train_state.py`: an optimizer value plus
optional axis metadata and the flax mutable collections.  In the source
`params_axes` defaults to `None` and `flax_mutables` to `EMPTY_DICT`. -/
structure FlaxOptimTrainState where
  _optimizer : Optimizer
  params_axes : Option VTree
  flax_mutables : FrozenDict

/-- Error message raised by `create` when the optimizer supports
`set_param_axes` but the model emitted no `params_axes` collection
(the MissingAxesError of the spec). -/
def missingAxesMsg : String :=
  "The optimizer supports params_axes for model-based partitioning, but the model is not emitting them."

/-- `FlaxOptimTrainState.create(optimizer_def, model_variables)` from
`train_state.py` lines 93-114: pop `params`, then split the remainder
into `params_axes` and the flax mutables, validate the axis precondition
when the optimizer declares `set_param_axes`, and build the state.  A
missing `params` key is the Python `KeyError` from `FrozenDict.pop`. -/
def FlaxOptimTrainState.create (optimizer_def : OptimizerDef)
    (model_variables : FrozenDict) : Except String FlaxOptimTrainState :=
  match fdPop model_variables "params" with
  | none => Except.error "KeyError: params"
  | some (other_variables, params) =>
      let popped := fdPop other_variables "params_axes"
      let flax_mutables : FrozenDict :=
        match popped with
        | some p => p.1
        | none => other_variables
      let params_axes : Option VTree :=
        match popped with
        | some p => some p.2
        | none => none
      if optimizer_def.hasSetParamAxes then
        match params_axes with
        | none => Except.error missingAxesMsg
        | some pa =>
            let axis_names := get_axis_names (some pa)
            let d := optimizer_def.set_param_axes axis_names
            Except.ok { _optimizer := d.create params,
                        params_axes := some pa,
                        flax_mutables := flax_mutables }
      else
        Except.ok { _optimizer := optimizer_def.create params,
                    params_axes := params_axes,
                    flax_mutables := flax_mutables }

/-- `step` property: `self._optimizer.state.step`. -/
def FlaxOptimTrainState.step (s : FlaxOptimTrainState) : Nat :=
  s._optimizer.state.step

/-- `params` property: `self._optimizer.target`. -/
def FlaxOptimTrainState.params (s : FlaxOptimTrainState) : VTree :=
  s._optimizer.target

/-- `param_states` property: `self._optimizer.state.param_states`. -/
def FlaxOptimTrainState.param_states (s : FlaxOptimTrainState) : VTree :=
  s._optimizer.state.param_states

/-- `state_dict()`: the optimizer snapshot, with a `flax_mutables` entry
added only when `self.flax_mutables` is truthy (non-empty). -/
def FlaxOptimTrainState.state_dict (s : FlaxOptimTrainState) : StateDict :=
  let sd := s._optimizer.state_dict
  if s.flax_mutables.isEmpty then sd
  else { sd with flax_mutables := some s.flax_mutables }

/-- `apply_gradient(grads, learning_rate, flax_mutables)`: delegate to the
optimizer and replace `_optimizer` and `flax_mutables` on the state. -/
def FlaxOptimTrainState.apply_gradient (s : FlaxOptimTrainState)
    (grads : VTree) (learning_rate : Int) (flax_mutables : FrozenDict) :
    FlaxOptimTrainState :=
  let new_optimizer := s._optimizer.apply_gradient grads learning_rate
  { s with _optimizer := new_optimizer, flax_mutables := flax_mutables }

/-- `apply_gradient` with the `flax_mutables` argument left at its Python
default `EMPTY_DICT`. -/
def FlaxOptimTrainState.apply_gradient_default (s : FlaxOptimTrainState)
    (grads : VTree) (learning_rate : Int) : FlaxOptimTrainState :=
  s.apply_gradient grads learning_rate EMPTY_DICT

/-- `replace_params(params)`: swap the optimizer target only. -/
def FlaxOptimTrainState.replace_params (s : FlaxOptimTrainState)
    (params : VTree) : FlaxOptimTrainState :=
  { s with _optimizer := { s._optimizer with target := params } }

/-- The in-place update `state_dict['state']['step'] = step` performed by
`replace_step`: overwrite the step entry of the inner state mapping,
keeping its other entries.  (`replace_step` only applies it to the
state's own snapshot, whose `state` key is always present.) -/
def StateDict.setStep (sd : StateDict) (step : Nat) : StateDict :=
  { sd with state := some (
      { step := some step,
        param_states :=
          match sd.state with
          | some inner => inner.param_states
          | none => none } : InnerStateDict) }

/-- `restore_state(state_dict)` from `train_state.py` lines 150-155:
restore the optimizer from the snapshot and take `flax_mutables` from
the snapshot when present, else `EMPTY_DICT`; `params_axes` is kept from
the receiver (`self.replace` touches only the named fields). -/
def FlaxOptimTrainState.restore_state (s : FlaxOptimTrainState)
    (state_dict : StateDict) : Except String FlaxOptimTrainState :=
  match s._optimizer.restore_state state_dict with
  | Except.error e => Except.error e
  | Except.ok new_optimizer =>
      Except.ok { s with
        _optimizer := new_optimizer,
        flax_mutables :=
          match state_dict.flax_mutables with
          | some m => m
          | none => EMPTY_DICT }

/-- `replace_step(step)` from `train_state.py` lines 145-148: round-trip
through `state_dict` with the step entry overwritten. -/
def FlaxOptimTrainState.replace_step (s : FlaxOptimTrainState)
    (step : Nat) : Except String FlaxOptimTrainState :=
  let state_dict := s.state_dict
  let state_dict := StateDict.setStep state_dict step
  s.restore_state state_dict

/-- The error message of `as_logical_axes` when the optimizer definition
lacks `derive_logical_axes` (the UnsupportedAxesError of the spec); it
names the optimizer implementation class. -/
def unsupportedAxesMsg (className : String) : String :=
  "Optimizer " ++ className ++
    " requires a derive_logical_axes method to be used with named axis partitioning."

/-- `as_logical_axes()` from `train_state.py` lines 157-166: fail when the
optimizer definition lacks `derive_logical_axes`; otherwise build a
fresh `FlaxOptimTrainState` around the derived optimizer, leaving
`params_axes` and `flax_mutables` at their defaults (`None`,
`EMPTY_DICT`). -/
def FlaxOptimTrainState.as_logical_axes (s : FlaxOptimTrainState) :
    Except String FlaxOptimTrainState :=
  if s._optimizer.optimizer_def.hasDeriveLogicalAxes = false then
    Except.error (unsupportedAxesMsg s._optimizer.optimizer_def.className)
  else
    let r := s._optimizer.optimizer_def.deriveLogicalAxesFn
               s._optimizer.state.step s._optimizer.target
               s._optimizer.state.param_states (get_axis_names s.params_axes)
    Except.ok
      { _optimizer :=
          { optimizer_def := s._optimizer.optimizer_def,
            target := r.2.1,
            state := { step := r.1, param_states := r.2.2 } },
        params_axes := none,
        flax_mutables := EMPTY_DICT }

/-- A concrete example optimizer definition for witnesses: its update rule
increments the step and keeps target and param states. -/
def exOptDef : OptimizerDef :=
  { className := "ExampleOptimizer",
    hasSetParamAxes := false,
    hasDeriveLogicalAxes := true,
    initParamStatesFn := fun t => t,
    applyGradientFn := fun st t ps _ _ => (st + 1, t, ps),
    deriveLogicalAxesFn := fun st _ _ ax => (st, VTree.node ax, VTree.node ax),
    paramAxesSet := none }

/-- An optimizer definition lacking `derive_logical_axes`. -/
def exOptDefNoDerive : OptimizerDef :=
  { exOptDef with className := "SgdOptimizer", hasDeriveLogicalAxes := false }

/-- An optimizer definition declaring `set_param_axes` support. -/
def exOptDefAxes : OptimizerDef :=
  { exOptDef with hasSetParamAxes := true }

/-- An example parameter tree. -/
def exParams : VTree := VTree.node [("w", VTree.leaf 1)]

/-- An example train state with axis metadata and one flax mutable. -/
def exState : FlaxOptimTrainState :=
  { _optimizer := exOptDef.create exParams,
    params_axes := some (VTree.node [("w", VTree.axes ["model"])]),
    flax_mutables := [("a", VTree.leaf 1)] }

/-- The example state over the derivation-free optimizer definition. -/
def exStateNoDerive : FlaxOptimTrainState :=
  { exState with _optimizer := exOptDefNoDerive.create exParams }

/-- An example snapshot holding every required key but no `flax_mutables`
entry. -/
def exSnapshot : StateDict :=
  { target := some exParams,
    state := some { step := some 7, param_states := some exParams },
    flax_mutables := none }

/-- An example snapshot missing the required `target` key. -/
def exBadSnapshot : StateDict :=
  { target := none,
    state := some { step := some 7, param_states := some exParams },
    flax_mutables := none }

/-- The state produced by restoring `exSnapshot` onto `exState`. -/
def exRestored : FlaxOptimTrainState :=
  { exState with
    _optimizer :=
      { exState._optimizer with
        target := exParams,
        state := { step := 7, param_states := exParams } },
    flax_mutables := EMPTY_DICT }

/-- The state produced by projecting `exState` to logical axes. -/
def exDerived : FlaxOptimTrainState :=
  { _optimizer :=
      { optimizer_def := exOptDef,
        target := VTree.node [("w", VTree.axes ["model"])],
        state := { step := 0,
                   param_states := VTree.node [("w", VTree.axes ["model"])] } },
    params_axes := none,
    flax_mutables := EMPTY_DICT }

/-- Helper: restoring a state from its own snapshot gives back the very
same state value. -/
theorem restore_state_dict_eq (S : FlaxOptimTrainState) :
    S.restore_state S.state_dict = Except.ok S := by
  obtain ⟨⟨d, t, ⟨st, ps⟩⟩, pa, fm⟩ := S
  cases fm <;> rfl

/-- Claim C1: for every state instance S (also when its flax mutables are
empty), `restore_state` applied to `S.state_dict()` yields a state whose
step, parameters, optimizer state and flax mutables are identical to
those of S (axis metadata excluded from the comparison). -/
theorem restore_of_state_dict_is_identity (S : FlaxOptimTrainState) :
    ∃ S2, S.restore_state S.state_dict = Except.ok S2 ∧
      S2.step = S.step ∧ S2.params = S.params ∧
      S2.param_states = S.param_states ∧
      S2.flax_mutables = S.flax_mutables :=
  ⟨S, restore_state_dict_eq S, rfl, rfl, rfl, rfl⟩

/-- Claim C2: for every state S and arguments, the state returned by
`apply_gradient` has step `S.step + 1`, under the hypothesis that the
external optimizer update rule increments its step by one. -/
theorem apply_gradient_increments_step (S : FlaxOptimTrainState)
    (grads : VTree) (learning_rate : Int) (flax_mutables : FrozenDict)
    (h : ∀ st t ps g lr,
      (S._optimizer.optimizer_def.applyGradientFn st t ps g lr).1 = st + 1) :
    (S.apply_gradient grads learning_rate flax_mutables).step = S.step + 1 := by
  simp [FlaxOptimTrainState.apply_gradient, FlaxOptimTrainState.step,
    Optimizer.apply_gradient, h]

/-- Witness for claim C2 at the concrete example state. -/
theorem apply_gradient_increments_step_witness :
    (exState.apply_gradient (VTree.leaf 0) 1 []).step = exState.step + 1 :=
  apply_gradient_increments_step exState (VTree.leaf 0) 1 []
    (fun _ _ _ _ _ => rfl)

/-- Claim C3: `apply_gradient` never changes the `params_axes` field,
including preserving its absence. -/
theorem apply_gradient_preserves_params_axes (S : FlaxOptimTrainState)
    (grads : VTree) (learning_rate : Int) (flax_mutables : FrozenDict) :
    (S.apply_gradient grads learning_rate flax_mutables).params_axes =
      S.params_axes := rfl

/-- Claim C4: the `flax_mutables` argument of `apply_gradient` fully
replaces the old collection with no merging, and omitting the argument
(the Python default) yields the empty mapping. -/
theorem apply_gradient_replaces_flax_mutables (S : FlaxOptimTrainState)
    (grads : VTree) (learning_rate : Int) (M : FrozenDict) :
    (S.apply_gradient grads learning_rate M).flax_mutables = M ∧
    (S.apply_gradient_default grads learning_rate).flax_mutables =
      EMPTY_DICT :=
  ⟨rfl, rfl⟩

/-- Claim C5: when the optimizer definition declares `set_param_axes`
support and the non-params remainder of `model_variables` has no
`params_axes` subtree, `create` fails with the missing-axes error and
produces no state instance. -/
theorem create_fails_without_params_axes (optimizer_def : OptimizerDef)
    (model_variables other_variables : FrozenDict) (params : VTree)
    (hsupp : optimizer_def.hasSetParamAxes = true)
    (hpop : fdPop model_variables "params" = some (other_variables, params))
    (hax : fdLookup other_variables "params_axes" = none) :
    FlaxOptimTrainState.create optimizer_def model_variables =
      Except.error missingAxesMsg := by
  unfold FlaxOptimTrainState.create
  rw [hpop]
  simp [fdPop, hax, hsupp]

/-- Witness for claim C5 at a concrete axis-supporting definition and
model variables without a `params_axes` collection. -/
theorem create_fails_without_params_axes_witness :
    FlaxOptimTrainState.create exOptDefAxes [("params", exParams)] =
      Except.error missingAxesMsg :=
  create_fails_without_params_axes exOptDefAxes [("params", exParams)] []
    exParams rfl rfl rfl

/-- The (step, target, param states) triple returned by the external
axis-derivation routine for a state S, as invoked by
`as_logical_axes`. -/
def deriveTriple (S : FlaxOptimTrainState) : Nat × VTree × VTree :=
  S._optimizer.optimizer_def.deriveLogicalAxesFn S._optimizer.state.step
    S._optimizer.target S._optimizer.state.param_states
    (get_axis_names S.params_axes)

/-- Claim C6: when the optimizer definition lacks `derive_logical_axes`,
the axis projection fails with an error naming the optimizer
implementation class and returns no state (the operation is pure, so S
itself is untouched); when the capability is present, it returns a
state whose parameters and optimizer state are the axis-name trees
produced by the external derivation routine. -/
theorem as_logical_axes_capability_dispatch (S : FlaxOptimTrainState) :
    (S._optimizer.optimizer_def.hasDeriveLogicalAxes = false →
      S.as_logical_axes =
        Except.error
          (unsupportedAxesMsg S._optimizer.optimizer_def.className)) ∧
    (S._optimizer.optimizer_def.hasDeriveLogicalAxes = true →
      ∃ S2, S.as_logical_axes = Except.ok S2 ∧
        S2.params = (deriveTriple S).2.1 ∧
        S2.param_states = (deriveTriple S).2.2) := by
  constructor
  · intro h
    simp [FlaxOptimTrainState.as_logical_axes, h]
  · intro h
    refine ⟨⟨⟨S._optimizer.optimizer_def, (deriveTriple S).2.1,
      ⟨(deriveTriple S).1, (deriveTriple S).2.2⟩⟩, none, EMPTY_DICT⟩,
      ?_, rfl, rfl⟩
    simp [FlaxOptimTrainState.as_logical_axes, h, deriveTriple]

/-- Witness for claim C6: the derivation-free example state fails with
the named error, and the derivation-capable one succeeds. -/
theorem as_logical_axes_capability_dispatch_witness :
    (exStateNoDerive.as_logical_axes =
      Except.error
        (unsupportedAxesMsg
          exStateNoDerive._optimizer.optimizer_def.className)) ∧
    (∃ S2, exState.as_logical_axes = Except.ok S2 ∧
      S2.params = (deriveTriple exState).2.1 ∧
      S2.param_states = (deriveTriple exState).2.2) :=
  ⟨(as_logical_axes_capability_dispatch exStateNoDerive).1 rfl,
   (as_logical_axes_capability_dispatch exState).2 rfl⟩

/-- Claim C7: `replace_step(S, n)` succeeds with step n and parameters,
optimizer state and flax mutables unchanged, and it equals restoring
S's own snapshot with the step entry overwritten by n. -/
theorem replace_step_sets_step_only (S : FlaxOptimTrainState) (n : Nat) :
    S.replace_step n =
      S.restore_state (StateDict.setStep S.state_dict n) ∧
    ∃ S2, S.replace_step n = Except.ok S2 ∧ S2.step = n ∧
      S2.params = S.params ∧ S2.param_states = S.param_states ∧
      S2.flax_mutables = S.flax_mutables := by
  obtain ⟨⟨d, t, ⟨st, ps⟩⟩, pa, fm⟩ := S
  refine ⟨rfl, ?_⟩
  cases fm with
  | nil => exact ⟨_, rfl, rfl, rfl, rfl, rfl⟩
  | cons a l => exact ⟨_, rfl, rfl, rfl, rfl, rfl⟩

/-- Claim C8: a snapshot holding the required keys but no `flax_mutables`
entry restores successfully with empty flax mutables, and a snapshot
missing a required key (target, state, or the step within state) makes
the restore call fail (the receiving state, being a pure value, is
untouched). -/
theorem restore_state_defaults_and_errors (S : FlaxOptimTrainState)
    (sd : StateDict) :
    (sd.flax_mutables = none →
      ∀ t inner st ps, sd.target = some t → sd.state = some inner →
        inner.step = some st → inner.param_states = some ps →
        ∃ S2, S.restore_state sd = Except.ok S2 ∧
          S2.flax_mutables = EMPTY_DICT) ∧
    ((sd.target = none ∨ sd.state = none ∨
        (∃ inner, sd.state = some inner ∧ inner.step = none)) →
      ∃ e, S.restore_state sd = Except.error e) := by
  obtain ⟨tgt, stt, fm⟩ := sd
  constructor
  · rintro rfl t inner st ps rfl rfl hst hps
    obtain ⟨istep, ips⟩ := inner
    simp only at hst hps
    subst hst hps
    exact ⟨_, rfl, rfl⟩
  · rintro (rfl | rfl | ⟨inner, rfl, hstep⟩)
    · cases stt <;>
        exact ⟨_, rfl⟩
    · cases tgt <;>
        exact ⟨_, rfl⟩
    · obtain ⟨istep, ips⟩ := inner
      simp only at hstep
      subst hstep
      cases tgt with
      | none => exact ⟨_, rfl⟩
      | some t => cases ips <;> exact ⟨_, rfl⟩

/-- Witness for claim C8 at the two concrete snapshots. -/
theorem restore_state_defaults_and_errors_witness :
    (∃ S2, exState.restore_state exSnapshot = Except.ok S2 ∧
      S2.flax_mutables = EMPTY_DICT) ∧
    (∃ e, exState.restore_state exBadSnapshot = Except.error e) :=
  ⟨(restore_state_defaults_and_errors exState exSnapshot).1 rfl exParams
      { step := some 7, param_states := some exParams } 7 exParams
      rfl rfl rfl rfl,
   (restore_state_defaults_and_errors exState exBadSnapshot).2 (Or.inl rfl)⟩

/-- Claim C9: for every snapshot accepted by `restore_state`, the
returned state keeps the receiving instance's `params_axes` unchanged,
never taking it from the snapshot. -/
theorem restore_state_preserves_params_axes (S S2 : FlaxOptimTrainState)
    (sd : StateDict) (h : S.restore_state sd = Except.ok S2) :
    S2.params_axes = S.params_axes := by
  cases hr : S._optimizer.restore_state sd with
  | error e =>
      rw [FlaxOptimTrainState.restore_state, hr] at h
      exact absurd h (by simp)
  | ok o =>
      rw [FlaxOptimTrainState.restore_state, hr] at h
      simp only [Except.ok.injEq] at h
      rw [← h]

/-- Witness for claim C9 at the concrete restored state. -/
theorem restore_state_preserves_params_axes_witness :
    exRestored.params_axes = exState.params_axes :=
  restore_state_preserves_params_axes exState exRestored exSnapshot rfl

/-- Claim C10: whenever the axis projection succeeds, the returned state
has absent `params_axes` and empty flax mutables: `as_logical_axes`
carries over neither field from S. -/
theorem as_logical_axes_clears_axes_and_mutables
    (S S2 : FlaxOptimTrainState)
    (h : S.as_logical_axes = Except.ok S2) :
    S2.params_axes = none ∧ S2.flax_mutables = EMPTY_DICT := by
  rw [FlaxOptimTrainState.as_logical_axes] at h
  by_cases hb : S._optimizer.optimizer_def.hasDeriveLogicalAxes = false
  · rw [if_pos hb] at h
    exact absurd h (by simp)
  · rw [if_neg hb] at h
    simp only [Except.ok.injEq] at h
    rw [← h]
    exact ⟨rfl, rfl⟩

/-- Witness for claim C10 at the concrete projected state. -/
theorem as_logical_axes_clears_axes_and_mutables_witness :
    exDerived.params_axes = none ∧ exDerived.flax_mutables = EMPTY_DICT :=
  as_logical_axes_clears_axes_and_mutables exState exDerived rfl
